import Mathlib

/-!
Verification of the scoring and ranking core of the stock-scanner service
(`src/app.py`).  Numbers are modelled as rationals; the per-symbol data fetch
and the technical-indicator computations (the `yfinance` / `ta` libraries) are
the external Indicator Provider of the design and enter the model as inputs.
-/

set_option maxRecDepth 8000

/-- RSI sub-score of `calculate_score` (src/app.py lines 254-258): 2 points
inside the `[rsi_min, rsi_max]` band, 1 point within 10 of the band midpoint,
otherwise 0. -/
def rsiScore (rsi rsi_min rsi_max : ℚ) : ℚ :=
  if rsi_min ≤ rsi ∧ rsi ≤ rsi_max then 2
  else if |rsi - (rsi_min + rsi_max) / 2| ≤ 10 then 1
  else 0

/-- Volume sub-score of `calculate_score` (lines 260-262): `min 2
(volume_ratio / volume_min)` when the ratio reaches the minimum, else 0. -/
def volumeScore (volume_ratio volume_min : ℚ) : ℚ :=
  if volume_ratio ≥ volume_min then min 2 (volume_ratio / volume_min) else 0

/-- ADX sub-score of `calculate_score` (lines 264-266). -/
def adxScore (adx adx_min : ℚ) : ℚ :=
  if adx ≥ adx_min then min 2 (adx / adx_min) else 0

/-- MFI sub-score of `calculate_score` (lines 268-270): normalised by the
fixed constant 50, not by the threshold. -/
def mfiScore (mfi mfi_min : ℚ) : ℚ :=
  if mfi ≥ mfi_min then min 2 (mfi / 50) else 0

/-- CMF sub-score of `calculate_score` (lines 272-274): the raw CMF value
scaled by 10. -/
def cmfScore (cmf cmf_min : ℚ) : ℚ :=
  if cmf ≥ cmf_min then min 2 (cmf * 10) else 0

/-- `calculate_score` (src/app.py lines 250-276): the five sub-scores are
accumulated in source order and the total is capped at 10. -/
def calculate_score (rsi volume_ratio adx mfi cmf
    rsi_min rsi_max volume_min adx_min mfi_min cmf_min : ℚ) : ℚ :=
  min (rsiScore rsi rsi_min rsi_max + volumeScore volume_ratio volume_min
      + adxScore adx adx_min + mfiScore mfi mfi_min + cmfScore cmf cmf_min) 10

/-- Division guarded against a zero divisor, modelling Python's
`ZeroDivisionError`: `none` is the raised exception. -/
def qdivChecked (a b : ℚ) : Option ℚ :=
  if b = 0 then none else some (a / b)

/-- Volume sub-score with its division routed through `qdivChecked`. -/
def volumeScoreChecked (volume_ratio volume_min : ℚ) : Option ℚ :=
  if volume_ratio ≥ volume_min then
    (qdivChecked volume_ratio volume_min).map (fun q => min 2 q)
  else some 0

/-- ADX sub-score with its division routed through `qdivChecked`. -/
def adxScoreChecked (adx adx_min : ℚ) : Option ℚ :=
  if adx ≥ adx_min then (qdivChecked adx adx_min).map (fun q => min 2 q)
  else some 0

/-- MFI sub-score with its division routed through `qdivChecked`. -/
def mfiScoreChecked (mfi mfi_min : ℚ) : Option ℚ :=
  if mfi ≥ mfi_min then (qdivChecked mfi 50).map (fun q => min 2 q)
  else some 0

/-- `calculate_score` with every division it performs routed through
`qdivChecked`, in the order the source performs them; `none` means the Python
code would raise `ZeroDivisionError`. -/
def calculate_scoreChecked (rsi volume_ratio adx mfi cmf
    rsi_min rsi_max volume_min adx_min mfi_min cmf_min : ℚ) : Option ℚ :=
  (volumeScoreChecked volume_ratio volume_min).bind fun s1 =>
  (adxScoreChecked adx adx_min).bind fun s2 =>
  (mfiScoreChecked mfi mfi_min).bind fun s3 =>
  some (min (rsiScore rsi rsi_min rsi_max + s1 + s2 + s3 + cmfScore cmf cmf_min) 10)

/-- Strength counter of `calculate_strength` (src/app.py lines 299-315): four
boolean contributions accumulated in source order. -/
def strength_score (rsi volume_ratio adx cmf : ℚ) : Nat :=
  let s : Nat := 0
  let s := if 30 ≤ rsi ∧ rsi ≤ 70 then s + 1 else s
  let s := if volume_ratio > 3/2 then s + 1 else s
  let s := if adx > 25 then s + 1 else s
  let s := if cmf > 0 then s + 1 else s
  s

/-- The lookup table `strength_map` of src/app.py line 317. -/
def strength_map : List (Nat × String) :=
  [(0, "Weak"), (1, "Low"), (2, "Medium"), (3, "Strong"), (4, "Very Strong")]

/-- `calculate_strength` (src/app.py lines 297-318): `strength_map.get(score,
"Unknown")` becomes an association-list lookup with default. -/
def calculate_strength (rsi volume_ratio adx cmf : ℚ) : String :=
  ((strength_map.lookup (strength_score rsi volume_ratio adx cmf)).getD "Unknown")

/-- Round-half-to-even on rationals, modelling Python's built-in `round` to
zero decimal places. -/
def roundHalfEven (x : ℚ) : ℤ :=
  if x - ⌊x⌋ < 1/2 then ⌊x⌋
  else if 1/2 < x - ⌊x⌋ then ⌊x⌋ + 1
  else if ⌊x⌋ % 2 = 0 then ⌊x⌋ else ⌊x⌋ + 1

/-- Python's `round(x, n)` for non-negative `n`. -/
def pythonRound (n : Nat) (x : ℚ) : ℚ :=
  (roundHalfEven (x * (10 : ℚ) ^ n) : ℚ) / (10 : ℚ) ^ n

/-- Python's `int(x)` on a float-like value: truncation toward zero. -/
def pyInt (x : ℚ) : ℤ := if 0 ≤ x then ⌊x⌋ else ⌈x⌉

/-- One OHLCV bar of fetched history; only the columns the scanner reads. -/
structure Bar where
  high : ℚ
  low : ℚ
  close : ℚ
  volume : ℚ
deriving DecidableEq

/-- Maximum of a list of rationals, as pandas `.max()` on a nonempty series. -/
def listMax : List ℚ → ℚ
  | [] => 0
  | x :: xs => xs.foldl max x

/-- Minimum of a list of rationals, as pandas `.min()` on a nonempty series. -/
def listMin : List ℚ → ℚ
  | [] => 0
  | x :: xs => xs.foldl min x

/-- `identify_pattern` (src/app.py lines 278-295).  `closes.getD 0 0` is
`recent_close[-1]`, `getD 1 0` is `recent_close[-2]`, `getD 2 0` is
`recent_close[-3]`; `recent_high`/`recent_low` are the max/min over the last
five bars. -/
def identify_pattern (df : List Bar) : String :=
  if df.length < 20 then "Insufficient Data"
  else
    let closes := (df.map Bar.close).reverse
    let recent_high := listMax ((df.map Bar.high).reverse.take 5)
    let recent_low := listMin ((df.map Bar.low).reverse.take 5)
    if closes.getD 0 0 > closes.getD 1 0 ∧ closes.getD 1 0 > closes.getD 2 0 then
      "Uptrend"
    else if closes.getD 0 0 < closes.getD 1 0 ∧ closes.getD 1 0 < closes.getD 2 0 then
      "Downtrend"
    else if |recent_high - recent_low| / closes.getD 0 0 < 2/100 then
      "Consolidation"
    else
      "Sideways"

/-- The pattern rules exactly as the claim states them: strictly increasing
last-3 closes, strictly decreasing last-3 closes, then `(max of last 5 highs -
min of last 5 lows) / last close < 0.02` with no absolute value, else
Sideways; fewer than 20 bars gives the insufficient-data label. -/
def specPatternClaim (df : List Bar) : String :=
  if df.length < 20 then "Insufficient Data"
  else
    let closes := (df.map Bar.close).reverse
    if closes.getD 2 0 < closes.getD 1 0 ∧ closes.getD 1 0 < closes.getD 0 0 then
      "Uptrend"
    else if closes.getD 0 0 < closes.getD 1 0 ∧ closes.getD 1 0 < closes.getD 2 0 then
      "Downtrend"
    else if (listMax ((df.map Bar.high).reverse.take 5)
        - listMin ((df.map Bar.low).reverse.take 5)) / closes.getD 0 0 < 2/100 then
      "Consolidation"
    else
      "Sideways"

/-- The claim's pattern rules amended only in the Consolidation test, which
takes the absolute value of the high-low range as the code does. -/
def specPatternAmended (df : List Bar) : String :=
  if df.length < 20 then "Insufficient Data"
  else
    let closes := (df.map Bar.close).reverse
    if closes.getD 2 0 < closes.getD 1 0 ∧ closes.getD 1 0 < closes.getD 0 0 then
      "Uptrend"
    else if closes.getD 0 0 < closes.getD 1 0 ∧ closes.getD 1 0 < closes.getD 2 0 then
      "Downtrend"
    else if |listMax ((df.map Bar.high).reverse.take 5)
        - listMin ((df.map Bar.low).reverse.take 5)| / closes.getD 0 0 < 2/100 then
      "Consolidation"
    else
      "Sideways"

/-- The indicator values the external Indicator Provider (`ta` library plus
the rolling volume average, src/app.py lines 610-650) reports for one symbol,
after the NaN defaults of lines 644-647 have been applied. -/
structure Snapshot where
  rsi : ℚ
  volumeRatio : ℚ
  adx : ℚ
  mfi : ℚ
  cmf : ℚ
deriving DecidableEq

/-- Everything the scan body sees for one symbol whose processing raised no
exception: the fetched history and the indicator snapshot. -/
structure StockData where
  bars : List Bar
  snap : Snapshot
deriving DecidableEq

/-- Outcome of the external fetch-and-compute for one symbol: `err` is any
exception raised inside the per-symbol `try` block. -/
inductive FetchOutcome where
  | err : FetchOutcome
  | ok : StockData → FetchOutcome
deriving DecidableEq

/-- The six request thresholds of `/api/scan` (src/app.py lines 566-571). -/
structure ThresholdConfig where
  rsi_min : ℚ
  rsi_max : ℚ
  volume_min : ℚ
  adx_min : ℚ
  mfi_min : ℚ
  cmf_min : ℚ
deriving DecidableEq

/-- One entry of the scan's result list (src/app.py lines 661-679), without
the fields that come from the external `info` lookup or the wall clock. -/
structure ScanResult where
  symbol : String
  price : ℚ
  change : ℚ
  changePercent : ℚ
  volume : ℤ
  rsi : ℚ
  volumeRatio : ℚ
  mfi : ℚ
  adx : ℚ
  cmf : ℚ
  pattern : String
  strength : String
  score : ℚ
deriving DecidableEq

/-- The scan loop's mutable accumulators (src/app.py lines 582-584). -/
structure ScanState where
  results : List ScanResult
  processed : Nat
  errors : Nat
deriving DecidableEq

/-- The scan summary counters (src/app.py lines 705-709), without the
wall-clock fields. -/
structure ScanSummary where
  stocks_processed : Nat
  matches_found : Nat
  errors : Nat
deriving DecidableEq

/-- The `/api/scan` response: the HTTP-500 `success: False` body with its
error string, or the `success: True` body with summary, capped result list
and `total_results`. -/
inductive ScanResponse where
  | failure : String → ScanResponse
  | success : ScanSummary → List ScanResult → Nat → ScanResponse
deriving DecidableEq

/-- The result list of a response; a failure response carries none. -/
def ScanResponse.resultsList : ScanResponse → List ScanResult
  | ScanResponse.failure _ => []
  | ScanResponse.success _ rs _ => rs

/-- `df['Close'].iloc[-1]`. -/
def lastClose (bars : List Bar) : ℚ := (bars.map Bar.close).reverse.getD 0 0

/-- `df['Close'].iloc[-2] if len(df) > 1 else current_price` (line 649). -/
def prevClose (bars : List Bar) : ℚ :=
  if 1 < bars.length then (bars.map Bar.close).reverse.getD 1 0 else lastClose bars

/-- `df['Volume'].iloc[-1]`. -/
def lastVolume (bars : List Bar) : ℚ := (bars.map Bar.volume).reverse.getD 0 0

/-- Builds the per-symbol result record (src/app.py lines 661-679) with the
same roundings the source applies. -/
def mkStockResult (symbol : String) (d : StockData) (score : ℚ) : ScanResult :=
  let current_price := lastClose d.bars
  let prev_price := prevClose d.bars
  let change_percent :=
    if 0 < prev_price then (current_price - prev_price) / prev_price * 100 else 0
  { symbol := symbol
    price := pythonRound 2 current_price
    change := pythonRound 2 (current_price - prev_price)
    changePercent := pythonRound 2 change_percent
    volume := pyInt (lastVolume d.bars)
    rsi := pythonRound 1 d.snap.rsi
    volumeRatio := pythonRound 2 d.snap.volumeRatio
    mfi := pythonRound 1 d.snap.mfi
    adx := pythonRound 1 d.snap.adx
    cmf := pythonRound 3 d.snap.cmf
    pattern := identify_pattern d.bars
    strength := calculate_strength d.snap.rsi d.snap.volumeRatio d.snap.adx d.snap.cmf
    score := pythonRound 1 score }

/-- One iteration of the scan loop (src/app.py lines 587-698) on one symbol.
Returns the new state and whether the loop breaks: a history shorter than 20
bars is skipped (`continue`, line 598, processed and errors untouched); a
match (`score >= 6.0`, line 657) appends its record; an exception increments
`errors` and breaks the loop once `errors > 20` (lines 692-697). -/
def processSymbol (cfg : ThresholdConfig) (st : ScanState)
    (item : String × FetchOutcome) : ScanState × Bool :=
  match item.2 with
  | FetchOutcome.err =>
      ({ st with errors := st.errors + 1 }, decide (st.errors + 1 > 20))
  | FetchOutcome.ok d =>
      if d.bars.length < 20 then (st, false)
      else
        let score := calculate_score d.snap.rsi d.snap.volumeRatio d.snap.adx
          d.snap.mfi d.snap.cmf cfg.rsi_min cfg.rsi_max cfg.volume_min
          cfg.adx_min cfg.mfi_min cfg.cmf_min
        let results :=
          if score ≥ 6 then st.results ++ [mkStockResult item.1 d score]
          else st.results
        ({ results := results, processed := st.processed + 1, errors := st.errors },
          false)

/-- The scan's `for` loop over the truncated symbol list. -/
def scanLoop (cfg : ThresholdConfig) :
    List (String × FetchOutcome) → ScanState → ScanState
  | [], st => st
  | item :: rest, st =>
      let step := processSymbol cfg st item
      if step.2 then step.1 else scanLoop cfg rest step.1

/-- Stable descending insertion by score: the inserted element goes after
every already-placed element of strictly greater score and before the rest. -/
def insertScoreDesc (r : ScanResult) : List ScanResult → List ScanResult
  | [] => [r]
  | x :: xs => if r.score < x.score then x :: insertScoreDesc r xs else r :: x :: xs

/-- `results.sort(key=lambda x: x['score'], reverse=True)` (src/app.py line
701): Python's sort is stable, so the embedding is a stable descending
insertion sort on the rounded score. -/
def sortByScoreDesc (rs : List ScanResult) : List ScanResult :=
  rs.foldr insertScoreDesc []

/-- Initial accumulators of one scan (src/app.py lines 582-584). -/
def initState : ScanState := { results := [], processed := 0, errors := 0 }

/-- The default thresholds of `/api/scan` (src/app.py lines 566-571). -/
def defaultConfig : ThresholdConfig :=
  { rsi_min := 25, rsi_max := 45, volume_min := 3/2, adx_min := 25,
    mfi_min := 30, cmf_min := 1/10 }

/-- `scan_stocks` (src/app.py lines 551-734): an empty symbol list is the
HTTP-500 failure of lines 558-563; otherwise the loop runs over
`symbols[:max_stocks]`, the matches are stable-sorted by score descending and
the response carries the top 25 (line 725). -/
def scan_stocks (cfg : ThresholdConfig) (inputs : List (String × FetchOutcome))
    (max_stocks : Nat) : ScanResponse :=
  match inputs with
  | [] => ScanResponse.failure "No symbols available. Please try refreshing symbols cache."
  | _ :: _ =>
      let st := scanLoop cfg (inputs.take max_stocks) initState
      let sorted := sortByScoreDesc st.results
      ScanResponse.success
        { stocks_processed := st.processed, matches_found := st.results.length,
          errors := st.errors }
        (sorted.take 25) st.results.length

/-- A 20-bar quiet history: every bar closes at 100 between a 101 high and a
99 low on a volume of 1000. -/
def bars20 : List Bar :=
  List.replicate 20 { high := 101, low := 99, close := 100, volume := 1000 }

/-- A symbol whose indicators score exactly 7 under the default thresholds. -/
def sevenStock : StockData :=
  { bars := bars20,
    snap := { rsi := 35, volumeRatio := 3, adx := 50, mfi := 25, cmf := 1/10 } }

/-- A symbol whose indicators score 0 under the default thresholds. -/
def zeroStock : StockData :=
  { bars := bars20,
    snap := { rsi := 0, volumeRatio := 0, adx := 0, mfi := 0, cmf := 0 } }

/-- The boundary snapshot of the regression fixture: RSI 50, volume ratio 1.5,
ADX 25, MFI 30, CMF 0.1. -/
def boundaryStock : StockData :=
  { bars := bars20,
    snap := { rsi := 50, volumeRatio := 3/2, adx := 25, mfi := 30, cmf := 1/10 } }

/-- Twenty degenerate bars whose high (1) sits below their low (2): the raw
high-low range is negative while its absolute value is large against the
close of 10. -/
def invertedBars : List Bar :=
  List.replicate 20 { high := 1, low := 2, close := 10, volume := 0 }

theorem rsiScore_nonneg (rsi rsi_min rsi_max : ℚ) : 0 ≤ rsiScore rsi rsi_min rsi_max := by
  unfold rsiScore
  split_ifs <;> norm_num

theorem volumeScore_nonneg (volume_ratio volume_min : ℚ) (h : 0 < volume_min) :
    0 ≤ volumeScore volume_ratio volume_min := by
  unfold volumeScore
  split_ifs with hc
  · exact le_min (by norm_num) (div_nonneg (le_trans h.le hc) h.le)
  · exact le_refl 0

theorem adxScore_nonneg (adx adx_min : ℚ) (h : 0 < adx_min) :
    0 ≤ adxScore adx adx_min := by
  unfold adxScore
  split_ifs with hc
  · exact le_min (by norm_num) (div_nonneg (le_trans h.le hc) h.le)
  · exact le_refl 0

theorem mfiScore_nonneg (mfi mfi_min : ℚ) (h : 0 ≤ mfi_min) :
    0 ≤ mfiScore mfi mfi_min := by
  unfold mfiScore
  split_ifs with hc
  · exact le_min (by norm_num) (div_nonneg (le_trans h hc) (by norm_num))
  · exact le_refl 0

theorem cmfScore_nonneg (cmf cmf_min : ℚ) (h : 0 ≤ cmf_min) :
    0 ≤ cmfScore cmf cmf_min := by
  unfold cmfScore
  split_ifs with hc
  · exact le_min (by norm_num) (mul_nonneg (le_trans h hc) (by norm_num))
  · exact le_refl 0

/-- C1: for thresholds whose volume and ADX minima are positive and whose MFI
and CMF minima are non-negative (every other value arbitrary), the composite
score of `calculate_score` lies in the closed interval `[0, 10]`, whatever
the magnitudes of the five indicator inputs. -/
theorem c1_calculate_score_bounded
    (rsi volume_ratio adx mfi cmf rsi_min rsi_max volume_min adx_min mfi_min cmf_min : ℚ)
    (hv : 0 < volume_min) (ha : 0 < adx_min) (hm : 0 ≤ mfi_min) (hc : 0 ≤ cmf_min) :
    0 ≤ calculate_score rsi volume_ratio adx mfi cmf
        rsi_min rsi_max volume_min adx_min mfi_min cmf_min
    ∧ calculate_score rsi volume_ratio adx mfi cmf
        rsi_min rsi_max volume_min adx_min mfi_min cmf_min ≤ 10 := by
  unfold calculate_score
  refine ⟨le_min ?_ (by norm_num), min_le_right _ _⟩
  have h1 := rsiScore_nonneg rsi rsi_min rsi_max
  have h2 := volumeScore_nonneg volume_ratio volume_min hv
  have h3 := adxScore_nonneg adx adx_min ha
  have h4 := mfiScore_nonneg mfi mfi_min hm
  have h5 := cmfScore_nonneg cmf cmf_min hc
  linarith

/-- C1 witness: the bound holds at the very large snapshot (10^6 everywhere)
under thresholds 25-45 / 2 / 25 / 30 / 1. -/
theorem c1_witness :
    0 < (2 : ℚ) ∧ 0 < (25 : ℚ) ∧ (0 : ℚ) ≤ 30 ∧ (0 : ℚ) ≤ 1 ∧
    (0 ≤ calculate_score 1000000 1000000 1000000 1000000 1000000 25 45 2 25 30 1
      ∧ calculate_score 1000000 1000000 1000000 1000000 1000000 25 45 2 25 30 1 ≤ 10) :=
  ⟨by decide, by decide, by decide, by decide,
    c1_calculate_score_bounded 1000000 1000000 1000000 1000000 1000000 25 45 2 25 30 1
      (by decide) (by decide) (by decide) (by decide)⟩

theorem boundary_score_value :
    calculate_score 50 (3/2) 25 30 (1/10) 25 45 (3/2) 25 30 (1/10) = 18/5 := by
  norm_num [calculate_score, rsiScore, volumeScore, adxScore, mfiScore, cmfScore, abs_le]

/-- C2 counterexample: at the boundary inputs under the default thresholds
the code returns 18/5 = 3.6, not the 28/5 = 5.6 the claim asserts — RSI 50
lies outside [25, 45] and is 15 away from the midpoint 35, so the RSI
sub-score is 0, not 2. -/
theorem c2_counterexample :
    calculate_score 50 (3/2) 25 30 (1/10) 25 45 (3/2) 25 30 (1/10) = 18/5
    ∧ (18/5 : ℚ) ≠ 28/5 := by
  exact ⟨boundary_score_value, by norm_num⟩

/-- C2 amended: the boundary inputs score exactly 3.6 (sub-scores
0 + 1 + 1 + 0.6 + 1), below the fixed 6.0 match threshold, so the symbol is
not a match: scanning it alone yields one processed stock and no results. -/
theorem c2_boundary_not_match :
    calculate_score 50 (3/2) 25 30 (1/10) 25 45 (3/2) 25 30 (1/10) = 18/5
    ∧ rsiScore 50 25 45 = 0 ∧ volumeScore (3/2) (3/2) = 1 ∧ adxScore 25 25 = 1
    ∧ mfiScore 30 30 = 3/5 ∧ cmfScore (1/10) (1/10) = 1
    ∧ ¬ ((18/5 : ℚ) ≥ 6)
    ∧ scan_stocks defaultConfig [("X", FetchOutcome.ok boundaryStock)] 100
        = ScanResponse.success
            { stocks_processed := 1, matches_found := 0, errors := 0 } [] 0 := by
  refine ⟨boundary_score_value, ?_, ?_, ?_, ?_, ?_, by norm_num, ?_⟩
  · norm_num [rsiScore, abs_le]
  · norm_num [volumeScore]
  · norm_num [adxScore]
  · norm_num [mfiScore]
  · norm_num [cmfScore]
  · simp only [scan_stocks, scanLoop, processSymbol, initState, defaultConfig, List.take,
      sortByScoreDesc, List.foldr]
    norm_num [boundaryStock, boundary_score_value, bars20, List.length_replicate]

theorem volumeScore_mono (v1 v2 volume_min : ℚ) (h : 0 < volume_min)
    (h1 : volume_min ≤ v1) (h12 : v1 ≤ v2) :
    volumeScore v1 volume_min ≤ volumeScore v2 volume_min := by
  unfold volumeScore
  rw [if_pos (show v1 ≥ volume_min from h1),
    if_pos (show v2 ≥ volume_min from le_trans h1 h12)]
  exact min_le_min le_rfl ((div_le_div_iff_of_pos_right h).2 h12)

theorem adxScore_mono (a1 a2 adx_min : ℚ) (h : 0 < adx_min)
    (h1 : adx_min ≤ a1) (h12 : a1 ≤ a2) :
    adxScore a1 adx_min ≤ adxScore a2 adx_min := by
  unfold adxScore
  rw [if_pos (show a1 ≥ adx_min from h1),
    if_pos (show a2 ≥ adx_min from le_trans h1 h12)]
  exact min_le_min le_rfl ((div_le_div_iff_of_pos_right h).2 h12)

theorem mfiScore_mono (m1 m2 mfi_min : ℚ) (h1 : mfi_min ≤ m1) (h12 : m1 ≤ m2) :
    mfiScore m1 mfi_min ≤ mfiScore m2 mfi_min := by
  unfold mfiScore
  rw [if_pos (show m1 ≥ mfi_min from h1),
    if_pos (show m2 ≥ mfi_min from le_trans h1 h12)]
  exact min_le_min le_rfl ((div_le_div_iff_of_pos_right (by norm_num)).2 h12)

theorem cmfScore_mono (c1 c2 cmf_min : ℚ) (h1 : cmf_min ≤ c1) (h12 : c1 ≤ c2) :
    cmfScore c1 cmf_min ≤ cmfScore c2 cmf_min := by
  unfold cmfScore
  rw [if_pos (show c1 ≥ cmf_min from h1),
    if_pos (show c2 ≥ cmf_min from le_trans h1 h12)]
  exact min_le_min le_rfl (mul_le_mul_of_nonneg_right h12 (by norm_num))

/-- C3: with all other indicator arguments and thresholds fixed,
`calculate_score` is monotonically non-decreasing in `volume_ratio` (on
`volume_ratio ≥ volume_min`, for positive `volume_min`), in `adx` (on
`adx ≥ adx_min`, for positive `adx_min`), in `mfi` (on `mfi ≥ mfi_min`) and
in `cmf` (on `cmf ≥ cmf_min`). -/
theorem c3_calculate_score_monotone :
    (∀ rsi adx mfi cmf rsi_min rsi_max volume_min adx_min mfi_min cmf_min v1 v2 : ℚ,
        0 < volume_min → volume_min ≤ v1 → v1 ≤ v2 →
        calculate_score rsi v1 adx mfi cmf rsi_min rsi_max volume_min adx_min mfi_min cmf_min
          ≤ calculate_score rsi v2 adx mfi cmf rsi_min rsi_max volume_min adx_min mfi_min cmf_min)
    ∧ (∀ rsi volume_ratio mfi cmf rsi_min rsi_max volume_min adx_min mfi_min cmf_min a1 a2 : ℚ,
        0 < adx_min → adx_min ≤ a1 → a1 ≤ a2 →
        calculate_score rsi volume_ratio a1 mfi cmf rsi_min rsi_max volume_min adx_min mfi_min cmf_min
          ≤ calculate_score rsi volume_ratio a2 mfi cmf rsi_min rsi_max volume_min adx_min mfi_min cmf_min)
    ∧ (∀ rsi volume_ratio adx cmf rsi_min rsi_max volume_min adx_min mfi_min cmf_min m1 m2 : ℚ,
        mfi_min ≤ m1 → m1 ≤ m2 →
        calculate_score rsi volume_ratio adx m1 cmf rsi_min rsi_max volume_min adx_min mfi_min cmf_min
          ≤ calculate_score rsi volume_ratio adx m2 cmf rsi_min rsi_max volume_min adx_min mfi_min cmf_min)
    ∧ (∀ rsi volume_ratio adx mfi rsi_min rsi_max volume_min adx_min mfi_min cmf_min c1 c2 : ℚ,
        cmf_min ≤ c1 → c1 ≤ c2 →
        calculate_score rsi volume_ratio adx mfi c1 rsi_min rsi_max volume_min adx_min mfi_min cmf_min
          ≤ calculate_score rsi volume_ratio adx mfi c2 rsi_min rsi_max volume_min adx_min mfi_min cmf_min) := by
  refine ⟨?_, ?_, ?_, ?_⟩
  · intro rsi adx mfi cmf rsi_min rsi_max volume_min adx_min mfi_min cmf_min v1 v2 h h1 h12
    unfold calculate_score
    exact min_le_min
      (add_le_add (add_le_add (add_le_add
        (add_le_add le_rfl (volumeScore_mono v1 v2 volume_min h h1 h12)) le_rfl) le_rfl) le_rfl)
      le_rfl
  · intro rsi volume_ratio mfi cmf rsi_min rsi_max volume_min adx_min mfi_min cmf_min a1 a2 h h1 h12
    unfold calculate_score
    exact min_le_min
      (add_le_add (add_le_add (add_le_add le_rfl
        (adxScore_mono a1 a2 adx_min h h1 h12)) le_rfl) le_rfl)
      le_rfl
  · intro rsi volume_ratio adx cmf rsi_min rsi_max volume_min adx_min mfi_min cmf_min m1 m2 h1 h12
    unfold calculate_score
    exact min_le_min
      (add_le_add (add_le_add le_rfl (mfiScore_mono m1 m2 mfi_min h1 h12)) le_rfl)
      le_rfl
  · intro rsi volume_ratio adx mfi rsi_min rsi_max volume_min adx_min mfi_min cmf_min c1 c2 h1 h12
    unfold calculate_score
    exact min_le_min (add_le_add le_rfl (cmfScore_mono c1 c2 cmf_min h1 h12)) le_rfl

/-- C3 witness: each of the four monotonicity statements instantiated at a
concrete configuration (thresholds 25-45 / 2 / 25 / 30 / 0) and concrete
indicator pairs. -/
theorem c3_witness :
    (calculate_score 35 2 30 40 1 25 45 2 25 30 0
      ≤ calculate_score 35 3 30 40 1 25 45 2 25 30 0)
    ∧ (calculate_score 35 2 30 40 1 25 45 2 25 30 0
      ≤ calculate_score 35 2 33 40 1 25 45 2 25 30 0)
    ∧ (calculate_score 35 2 30 40 1 25 45 2 25 30 0
      ≤ calculate_score 35 2 30 44 1 25 45 2 25 30 0)
    ∧ (calculate_score 35 2 30 40 1 25 45 2 25 30 0
      ≤ calculate_score 35 2 30 40 2 25 45 2 25 30 0) :=
  ⟨c3_calculate_score_monotone.1 35 30 40 1 25 45 2 25 30 0 2 3
      (by decide) (by decide) (by decide),
    c3_calculate_score_monotone.2.1 35 2 40 1 25 45 2 25 30 0 30 33
      (by decide) (by decide) (by decide),
    c3_calculate_score_monotone.2.2.1 35 2 30 1 25 45 2 25 30 0 40 44
      (by decide) (by decide),
    c3_calculate_score_monotone.2.2.2 35 2 30 40 25 45 2 25 30 0 1 2
      (by decide) (by decide)⟩

/-- C9: `calculate_strength` only ever returns one of the five labels Weak,
Low, Medium, Strong, Very Strong; the "Unknown" fallback of `strength_map` is
unreachable because the four boolean contributions sum to at most 4. -/
theorem c9_strength_labels (rsi volume_ratio adx cmf : ℚ) :
    calculate_strength rsi volume_ratio adx cmf
      ∈ ["Weak", "Low", "Medium", "Strong", "Very Strong"]
    ∧ calculate_strength rsi volume_ratio adx cmf ≠ "Unknown" := by
  have h4 : strength_score rsi volume_ratio adx cmf ≤ 4 := by
    unfold strength_score
    split_ifs <;> norm_num
  unfold calculate_strength
  set n := strength_score rsi volume_ratio adx cmf with hn
  interval_cases n <;> decide

theorem qdivChecked_of_ne (a b : ℚ) (h : b ≠ 0) : qdivChecked a b = some (a / b) := by
  simp [qdivChecked, h]

theorem volumeScoreChecked_of_pos (volume_ratio volume_min : ℚ) (h : 0 < volume_min) :
    volumeScoreChecked volume_ratio volume_min = some (volumeScore volume_ratio volume_min) := by
  unfold volumeScoreChecked volumeScore
  split_ifs with hc
  · rw [qdivChecked_of_ne volume_ratio volume_min h.ne']
    rfl
  · rfl

theorem adxScoreChecked_of_pos (adx adx_min : ℚ) (h : 0 < adx_min) :
    adxScoreChecked adx adx_min = some (adxScore adx adx_min) := by
  unfold adxScoreChecked adxScore
  split_ifs with hc
  · rw [qdivChecked_of_ne adx adx_min h.ne']
    rfl
  · rfl

theorem mfiScoreChecked_eq (mfi mfi_min : ℚ) :
    mfiScoreChecked mfi mfi_min = some (mfiScore mfi mfi_min) := by
  unfold mfiScoreChecked mfiScore
  split_ifs with hc
  · rw [qdivChecked_of_ne mfi 50 (by norm_num)]
    rfl
  · rfl

/-- C10: when `volume_min` and `adx_min` are positive every division of
`calculate_score` has a non-zero divisor — the checked evaluation never
raises and agrees with the unchecked one — and the precondition is necessary:
at `volume_min = 0` with `volume_ratio = 3/2 ≥ 0` (values the scan endpoint
accepts verbatim from the request) the guarded evaluation reaches a zero
divisor. -/
theorem c10_division_guarded :
    (∀ rsi volume_ratio adx mfi cmf rsi_min rsi_max volume_min adx_min mfi_min cmf_min : ℚ,
        0 < volume_min → 0 < adx_min →
        calculate_scoreChecked rsi volume_ratio adx mfi cmf
            rsi_min rsi_max volume_min adx_min mfi_min cmf_min
          = some (calculate_score rsi volume_ratio adx mfi cmf
              rsi_min rsi_max volume_min adx_min mfi_min cmf_min))
    ∧ calculate_scoreChecked 50 (3/2) 25 30 (1/10) 25 45 0 25 30 (1/10) = none := by
  constructor
  · intro rsi volume_ratio adx mfi cmf rsi_min rsi_max volume_min adx_min mfi_min cmf_min hv ha
    rw [calculate_scoreChecked, volumeScoreChecked_of_pos volume_ratio volume_min hv,
      adxScoreChecked_of_pos adx adx_min ha, mfiScoreChecked_eq mfi mfi_min]
    rfl
  · norm_num [calculate_scoreChecked, volumeScoreChecked, qdivChecked]

/-- C10 witness: the checked and unchecked scores agree at a concrete
positive configuration. -/
theorem c10_witness :
    0 < (2 : ℚ) ∧ 0 < (25 : ℚ) ∧
    calculate_scoreChecked 35 2 30 40 1 25 45 2 25 30 0
      = some (calculate_score 35 2 30 40 1 25 45 2 25 30 0) :=
  ⟨by decide, by decide,
    c10_division_guarded.1 35 2 30 40 1 25 45 2 25 30 0 (by decide) (by decide)⟩

theorem sortByScoreDesc_cons (r : ScanResult) (l : List ScanResult) :
    sortByScoreDesc (r :: l) = insertScoreDesc r (sortByScoreDesc l) := rfl

theorem mem_insertScoreDesc (y r : ScanResult) (l : List ScanResult) :
    y ∈ insertScoreDesc r l → y = r ∨ y ∈ l := by
  induction l with
  | nil =>
      intro h
      simp only [insertScoreDesc, List.mem_singleton] at h
      exact Or.inl h
  | cons x xs ih =>
      intro h
      simp only [insertScoreDesc] at h
      split_ifs at h with hc
      · rcases List.mem_cons.1 h with h1 | h2
        · exact Or.inr (h1 ▸ List.mem_cons_self x xs)
        · rcases ih h2 with h3 | h4
          · exact Or.inl h3
          · exact Or.inr (List.mem_cons_of_mem x h4)
      · rcases List.mem_cons.1 h with h1 | h2
        · exact Or.inl h1
        · exact Or.inr h2

theorem pairwise_insertScoreDesc (r : ScanResult) (l : List ScanResult)
    (h : List.Pairwise (fun a b => b.score ≤ a.score) l) :
    List.Pairwise (fun a b => b.score ≤ a.score) (insertScoreDesc r l) := by
  induction l with
  | nil => simp [insertScoreDesc]
  | cons x xs ih =>
      rcases List.pairwise_cons.1 h with ⟨hx, hxs⟩
      by_cases hc : r.score < x.score
      · rw [show insertScoreDesc r (x :: xs) = x :: insertScoreDesc r xs from by
          simp [insertScoreDesc, hc]]
        refine List.pairwise_cons.2 ⟨?_, ih hxs⟩
        intro y hy
        rcases mem_insertScoreDesc y r xs hy with h1 | h2
        · exact h1 ▸ le_of_lt hc
        · exact hx y h2
      · rw [show insertScoreDesc r (x :: xs) = r :: x :: xs from by
          simp [insertScoreDesc, hc]]
        push_neg at hc
        refine List.pairwise_cons.2 ⟨?_, h⟩
        intro y hy
        rcases List.mem_cons.1 hy with h1 | h2
        · exact h1 ▸ hc
        · exact le_trans (hx y h2) hc

theorem filter_insertScoreDesc (s : ℚ) (r : ScanResult) (l : List ScanResult) :
    (insertScoreDesc r l).filter (fun x => x.score == s)
      = if r.score == s then r :: l.filter (fun x => x.score == s)
        else l.filter (fun x => x.score == s) := by
  induction l with
  | nil =>
      simp only [insertScoreDesc]
      by_cases hr : r.score = s
      · simp [List.filter, beq_iff_eq, hr]
      · simp [List.filter, beq_eq_false_iff_ne.2 hr]
  | cons x xs ih =>
      by_cases hc : r.score < x.score
      · rw [show insertScoreDesc r (x :: xs) = x :: insertScoreDesc r xs from by
          simp [insertScoreDesc, hc]]
        by_cases hr : r.score = s
        · have hx : ¬ x.score = s := by
            intro hxs
            rw [hr, hxs] at hc
            exact lt_irrefl s hc
          simp [List.filter_cons, hr, hx, ih]
        · by_cases hx : x.score = s
          · simp [List.filter_cons, hr, hx, ih]
          · simp [List.filter_cons, hr, hx, ih]
      · rw [show insertScoreDesc r (x :: xs) = r :: x :: xs from by
          simp [insertScoreDesc, hc]]
        by_cases hr : r.score = s
        · simp [List.filter_cons, hr]
        · simp [List.filter_cons, hr]

theorem filter_sortByScoreDesc (rs : List ScanResult) (s : ℚ) :
    (sortByScoreDesc rs).filter (fun x => x.score == s)
      = rs.filter (fun x => x.score == s) := by
  induction rs with
  | nil => rfl
  | cons r l ih =>
      rw [sortByScoreDesc_cons, filter_insertScoreDesc]
      by_cases hr : r.score = s
      · simp [List.filter_cons, hr, ih]
      · simp [List.filter_cons, hr, ih]

theorem sortByScoreDesc_sorted (rs : List ScanResult) :
    List.Pairwise (fun a b => b.score ≤ a.score) (sortByScoreDesc rs) := by
  induction rs with
  | nil => simp [sortByScoreDesc]
  | cons r l ih =>
      rw [sortByScoreDesc_cons]
      exact pairwise_insertScoreDesc r (sortByScoreDesc l) ih

theorem seven_score_value :
    calculate_score 35 3 50 25 (1/10) 25 45 (3/2) 25 30 (1/10) = 7 := by
  norm_num [calculate_score, rsiScore, volumeScore, adxScore, mfiScore, cmfScore]

/-- C4: the scan's result list is the stable descending sort of the match
list truncated to 25 — the sort is descending in score (pairwise), every
score class keeps its accumulation order (the filter at any score value is
unchanged), no response carries more than 25 results — and concretely two
symbols forced to the equal score 7.0 and supplied in the order [B, A] come
back in the order [B, A]. -/
theorem c4_results_sorted_stable_capped :
    (∀ rs : List ScanResult,
        List.Pairwise (fun a b => b.score ≤ a.score) (sortByScoreDesc rs))
    ∧ (∀ (rs : List ScanResult) (s : ℚ),
        (sortByScoreDesc rs).filter (fun x => x.score == s)
          = rs.filter (fun x => x.score == s))
    ∧ (∀ (cfg : ThresholdConfig) (inputs : List (String × FetchOutcome)) (n : Nat),
        ((scan_stocks cfg inputs n).resultsList).length ≤ 25)
    ∧ ((scan_stocks defaultConfig
          [("B", FetchOutcome.ok sevenStock), ("A", FetchOutcome.ok sevenStock)]
          100).resultsList.map ScanResult.symbol) = ["B", "A"] := by
  refine ⟨sortByScoreDesc_sorted, filter_sortByScoreDesc, ?_, ?_⟩
  · intro cfg inputs n
    match inputs with
    | [] => simp [scan_stocks, ScanResponse.resultsList]
    | item :: rest =>
        simp only [scan_stocks, ScanResponse.resultsList]
        rw [List.length_take]
        exact min_le_left 25 _
  · simp only [scan_stocks, scanLoop, processSymbol, initState, defaultConfig, List.take,
      sortByScoreDesc, List.foldr, ScanResponse.resultsList]
    norm_num [sevenStock, seven_score_value, bars20, List.length_replicate, mkStockResult,
      insertScoreDesc]

/-- C5 counterexample: eleven consecutive fetch failures do NOT halt the
scan — the error ceiling in the code is 20, not 10 — so a 12th, healthy
symbol is still processed: after 11 errors followed by one good symbol the
loop ends with `errors = 11`, one processed stock and one match. -/
theorem c5_counterexample :
    (scanLoop defaultConfig
        (List.replicate 11 ("E", FetchOutcome.err) ++ [("G", FetchOutcome.ok sevenStock)])
        initState).errors = 11
    ∧ (scanLoop defaultConfig
        (List.replicate 11 ("E", FetchOutcome.err) ++ [("G", FetchOutcome.ok sevenStock)])
        initState).processed = 1 := by
  constructor
  · simp only [scanLoop, processSymbol, initState, List.replicate, List.cons_append,
      List.nil_append]
    norm_num [sevenStock, bars20, List.length_replicate, seven_score_value]
  · simp only [scanLoop, processSymbol, initState, List.replicate, List.cons_append,
      List.nil_append]
    norm_num [sevenStock, bars20, List.length_replicate, seven_score_value]

/-- C5 amended: every caught per-symbol exception increments the error
counter and the loop breaks exactly when the count exceeds the fixed ceiling
of 20; twenty-one consecutive fetch failures therefore halt the scan with
`errors = 21`, zero stocks processed and every later symbol untouched. -/
theorem c5_error_budget :
    (∀ (cfg : ThresholdConfig) (st : ScanState) (sym : String),
        (processSymbol cfg st (sym, FetchOutcome.err)).1.errors = st.errors + 1
        ∧ ((processSymbol cfg st (sym, FetchOutcome.err)).1.results = st.results)
        ∧ ((processSymbol cfg st (sym, FetchOutcome.err)).2 = true ↔ 20 < st.errors + 1))
    ∧ (∀ (cfg : ThresholdConfig) (rest : List (String × FetchOutcome)),
        scanLoop cfg (List.replicate 21 ("E", FetchOutcome.err) ++ rest) initState
          = { results := [], processed := 0, errors := 21 }) := by
  constructor
  · intro cfg st sym
    refine ⟨rfl, rfl, ?_⟩
    simp [processSymbol]
  · intro cfg rest
    rfl

/-- C6: a fetched history shorter than the 20-bar minimum makes the loop body
skip the symbol — state unchanged, no break, so the loop continues with the
remaining symbols — leaving the error counter and the result list untouched;
only an exception (`FetchOutcome.err`) increments the error counter. -/
theorem c6_insufficient_bars_skip :
    (∀ (cfg : ThresholdConfig) (st : ScanState) (sym : String) (bars : List Bar)
        (snap : Snapshot) (rest : List (String × FetchOutcome)),
        bars.length < 20 →
        processSymbol cfg st (sym, FetchOutcome.ok { bars := bars, snap := snap })
          = (st, false)
        ∧ scanLoop cfg ((sym, FetchOutcome.ok { bars := bars, snap := snap }) :: rest) st
          = scanLoop cfg rest st)
    ∧ (∀ (cfg : ThresholdConfig) (st : ScanState) (sym : String),
        (processSymbol cfg st (sym, FetchOutcome.err)).1.errors = st.errors + 1) := by
  constructor
  · intro cfg st sym bars snap rest h
    have hp : processSymbol cfg st (sym, FetchOutcome.ok { bars := bars, snap := snap })
        = (st, false) := by
      simp [processSymbol, h]
    refine ⟨hp, ?_⟩
    simp [scanLoop, hp]
  · intro cfg st sym
    rfl

/-- C6 witness: a one-bar history is skipped: the state survives unchanged
and the loop moves on. -/
theorem c6_witness :
    ([{ high := 1, low := 1, close := 1, volume := 1 }] : List Bar).length < 20
    ∧ processSymbol defaultConfig initState
        ("X", FetchOutcome.ok
          { bars := [{ high := 1, low := 1, close := 1, volume := 1 }],
            snap := { rsi := 0, volumeRatio := 0, adx := 0, mfi := 0, cmf := 0 } })
        = (initState, false) :=
  ⟨by decide,
    (c6_insufficient_bars_skip.1 defaultConfig initState "X"
      [{ high := 1, low := 1, close := 1, volume := 1 }]
      { rsi := 0, volumeRatio := 0, adx := 0, mfi := 0, cmf := 0 } [] (by decide)).1⟩

theorem zero_score_value :
    calculate_score 0 0 0 0 0 25 45 (3/2) 25 30 (1/10) = 0 := by
  norm_num [calculate_score, rsiScore, volumeScore, adxScore, mfiScore, cmfScore, abs_le]

/-- C7: an empty symbol list makes the scan fail as a whole with the explicit
`success: False` error body, for every configuration and limit; a scan that
runs and merely finds no match instead returns the `success: True` body with
an empty result list; the two response shapes are never equal. -/
theorem c7_no_symbols_failure :
    (∀ (cfg : ThresholdConfig) (n : Nat),
        scan_stocks cfg [] n
          = ScanResponse.failure "No symbols available. Please try refreshing symbols cache.")
    ∧ scan_stocks defaultConfig [("A", FetchOutcome.ok zeroStock)] 100
        = ScanResponse.success
            { stocks_processed := 1, matches_found := 0, errors := 0 } [] 0
    ∧ (∀ (e : String) (s : ScanSummary) (rs : List ScanResult) (t : Nat),
        ScanResponse.failure e ≠ ScanResponse.success s rs t) := by
  refine ⟨fun cfg n => rfl, ?_, ?_⟩
  · simp only [scan_stocks, scanLoop, processSymbol, initState, defaultConfig, List.take,
      sortByScoreDesc, List.foldr]
    norm_num [zeroStock, zero_score_value, bars20, List.length_replicate]
  · intro e s rs t
    simp

/-- C8 counterexample: on twenty inverted bars (high 1 below low 2, close
10) the claim's raw-range rule fires Consolidation, since (1 - 2) / 10 is
negative and hence below 0.02, but the code takes the absolute value of the
range, 1/10 ≥ 0.02, and returns Sideways. -/
theorem c8_counterexample :
    identify_pattern invertedBars = "Sideways"
    ∧ specPatternClaim invertedBars = "Consolidation"
    ∧ ("Sideways" : String) ≠ "Consolidation" := by
  refine ⟨?_, ?_, by decide⟩
  · simp only [identify_pattern, invertedBars, List.map_replicate, List.reverse_replicate,
      List.take_replicate, List.length_replicate]
    norm_num [listMax, listMin, List.replicate, List.getD, abs_of_nonpos]
  · simp only [specPatternClaim, invertedBars, List.map_replicate, List.reverse_replicate,
      List.take_replicate, List.length_replicate]
    norm_num [listMax, listMin, List.replicate, List.getD]

/-- C8 amended: `identify_pattern` realises the claim's rule list exactly
once the Consolidation test reads `|max of last 5 highs - min of last 5
lows| / last close < 0.02`: both functions agree on every history, shorter
or longer than 20 bars. -/
theorem c8_pattern_rules (df : List Bar) :
    identify_pattern df = specPatternAmended df := by
  simp only [identify_pattern, specPatternAmended, gt_iff_lt]
  split_ifs <;> first | rfl | tauto
